import Mathlib

/-!
# OTP example server: request handlers `sendOTP` and `verifyOTP`

A shallow embedding of `main.go`.  The two API handlers are pure functions of

* the inbound request (method and body),
* the JSON decoder applied to the body (`encoding/json`, an external library), and
* the provider client (`sendly.Client`, an external library).

Every interaction with the decoder or the provider is recorded, in order, in the
list of effects of the handler, so that statements such as "the provider is not
invoked" are statements about that list.

Go strings are modelled by Lean strings; a Go `error` is modelled by the text that
`%v` renders for it (the result of its `Error()` method).
-/

namespace OTP

/-! ## Data model (`main.go`, lines 19-39) -/

/-- Go struct `SendOTPRequest`. -/
structure SendOTPRequest where
  Phone : String
  deriving DecidableEq, Repr

/-- Go struct `SendOTPResponse`; omitted fields take Go's zero value. -/
structure SendOTPResponse where
  VerificationID : String := ""
  Success : Bool := false
  Error : String := ""
  deriving DecidableEq, Repr

/-- Go struct `VerifyOTPRequest`. -/
structure VerifyOTPRequest where
  VerificationID : String
  Code : String
  deriving DecidableEq, Repr

/-- Go struct `VerifyOTPResponse`; omitted fields take Go's zero value. -/
structure VerifyOTPResponse where
  Success : Bool := false
  Status : String := ""
  Error : String := ""
  Message : String := ""
  deriving DecidableEq, Repr

/-! ## The external provider (`github.com/SendlyHQ/sendly-go/sendly`) -/

/-- Argument of `client.Verify.Send`: only the field the handler sets. -/
structure SendVerificationRequest where
  To : String
  deriving DecidableEq, Repr

/-- Argument of `client.Verify.Check`: only the field the handler sets. -/
structure CheckVerificationRequest where
  Code : String
  deriving DecidableEq, Repr

/-- Result of `client.Verify.Send`: only the field the handler reads. -/
structure SendVerificationResult where
  ID : String
  deriving DecidableEq, Repr

/-- Result of `client.Verify.Check`: only the field the handler reads. -/
structure CheckVerificationResult where
  Status : String
  deriving DecidableEq, Repr

/-- The provider client `client.Verify`.  Each operation either fails with an error
(its message) or returns a result; the behaviour is arbitrary. -/
structure Client where
  Send : SendVerificationRequest → Except String SendVerificationResult
  Check : String → CheckVerificationRequest → Except String CheckVerificationResult

/-! ## HTTP requests and replies -/

/-- The part of `*http.Request` the handlers read. -/
structure Request where
  Method : String
  Body : String
  deriving DecidableEq, Repr

/-- Constant `http.MethodPost`. -/
def MethodPost : String := "POST"

/-- Constant `http.StatusOK`. -/
def StatusOK : Nat := 200

/-- Constant `http.StatusBadRequest`. -/
def StatusBadRequest : Nat := 400

/-- Constant `http.StatusMethodNotAllowed`. -/
def StatusMethodNotAllowed : Nat := 405

/-- Constant `http.StatusInternalServerError`. -/
def StatusInternalServerError : Nat := 500

/-- What `respondJSON` puts on the wire: the Content-Type header it sets, the status
it writes, and the value it hands to the JSON encoder. -/
structure JSONReply (α : Type) where
  contentType : String
  status : Nat
  data : α
  deriving DecidableEq, Repr

/-- Go function `respondJSON` (lines 191-195). -/
def respondJSON {α : Type} (status : Nat) (data : α) : JSONReply α :=
  { contentType := "application/json", status := status, data := data }

/-- What a handler writes to its `http.ResponseWriter`: either the plain-text error
reply of the library call `http.Error(w, msg, code)`, or a JSON envelope written by
`respondJSON`. -/
inductive Reply (α : Type) where
  | httpError (msg : String) (code : Nat)
  | json (r : JSONReply α)
  deriving DecidableEq, Repr

/-- Interactions of a handler with its collaborators, in program order. -/
inductive Effect where
  | decode (body : String)
  | send (req : SendVerificationRequest)
  | check (id : String) (req : CheckVerificationRequest)
  deriving DecidableEq, Repr

/-- Result of running a handler: the reply written and the effects performed. -/
structure Outcome (α : Type) where
  reply : Reply α
  effects : List Effect
  deriving DecidableEq, Repr

/-- Rendering of `fmt.Sprintf(pre + "%v", err)` for an error with message `err`. -/
def sprintfV (pre err : String) : String := pre ++ err

/-! ## The handlers -/

/-- Go function `sendOTP` (lines 98-138).  `decode` is
`json.NewDecoder(r.Body).Decode(&req)` and `client` is the global provider client. -/
def sendOTP (decode : String → Except String SendOTPRequest) (client : Client)
    (r : Request) : Outcome SendOTPResponse :=
  if r.Method ≠ MethodPost then
    { reply := .httpError "Method not allowed" StatusMethodNotAllowed, effects := [] }
  else
    match decode r.Body with
    | .error _ =>
      { reply := .json (respondJSON StatusBadRequest
          { Success := false, Error := "Invalid request body" }),
        effects := [.decode r.Body] }
    | .ok req =>
      if req.Phone = "" then
        { reply := .json (respondJSON StatusBadRequest
            { Success := false, Error := "Phone number is required" }),
          effects := [.decode r.Body] }
      else
        match client.Send { To := req.Phone } with
        | .error err =>
          { reply := .json (respondJSON StatusInternalServerError
              { Success := false, Error := sprintfV "Failed to send OTP: " err }),
            effects := [.decode r.Body, .send { To := req.Phone }] }
        | .ok verification =>
          { reply := .json (respondJSON StatusOK
              { Success := true, VerificationID := verification.ID }),
            effects := [.decode r.Body, .send { To := req.Phone }] }

/-- Go function `verifyOTP` (lines 140-189).  `decode` is
`json.NewDecoder(r.Body).Decode(&req)` and `client` is the global provider client. -/
def verifyOTP (decode : String → Except String VerifyOTPRequest) (client : Client)
    (r : Request) : Outcome VerifyOTPResponse :=
  if r.Method ≠ MethodPost then
    { reply := .httpError "Method not allowed" StatusMethodNotAllowed, effects := [] }
  else
    match decode r.Body with
    | .error _ =>
      { reply := .json (respondJSON StatusBadRequest
          { Success := false, Error := "Invalid request body" }),
        effects := [.decode r.Body] }
    | .ok req =>
      if req.VerificationID = "" ∨ req.Code = "" then
        { reply := .json (respondJSON StatusBadRequest
            { Success := false, Error := "Verification ID and code are required" }),
          effects := [.decode r.Body] }
      else
        match client.Check req.VerificationID { Code := req.Code } with
        | .error err =>
          { reply := .json (respondJSON StatusInternalServerError
              { Success := false, Error := sprintfV "Failed to verify OTP: " err }),
            effects := [.decode r.Body, .check req.VerificationID { Code := req.Code }] }
        | .ok result =>
          if result.Status = "verified" then
            { reply := .json (respondJSON StatusOK
                { Success := true, Status := result.Status,
                  Message := "Phone number verified successfully!" }),
              effects := [.decode r.Body, .check req.VerificationID { Code := req.Code }] }
          else
            { reply := .json (respondJSON StatusOK
                { Success := false, Status := result.Status,
                  Error := "Invalid verification code" }),
              effects := [.decode r.Body, .check req.VerificationID { Code := req.Code }] }

/-! ## Observations on outcomes -/

/-- The provider calls among a list of effects. -/
def providerCalls (es : List Effect) : List Effect :=
  es.filter fun e =>
    match e with
    | .decode _ => false
    | .send _ => true
    | .check _ _ => true

/-- The body-decoding steps among a list of effects. -/
def decodeSteps (es : List Effect) : List Effect :=
  es.filter fun e =>
    match e with
    | .decode _ => true
    | .send _ => false
    | .check _ _ => false

/-- Substring test: `sub` occurs as a contiguous run of characters inside `s`. -/
def containsSubstr (s sub : String) : Prop := sub.data <:+: s.data

instance (s sub : String) : Decidable (containsSubstr s sub) := by
  unfold containsSubstr; infer_instance

/-- A decoder for examples: one well-formed send body, everything else malformed. -/
def sampleSendDecode (body : String) : Except String SendOTPRequest :=
  if body = "\x7b\"phone\":\"+15551234567\"\x7d" then .ok { Phone := "+15551234567" }
  else if body = "\x7b\x7d" then .ok { Phone := "" }
  else .error "invalid character"

/-- A decoder for examples: one well-formed verify body, one with an empty code,
everything else malformed. -/
def sampleVerifyDecode (body : String) : Except String VerifyOTPRequest :=
  if body = "\x7b\"verificationId\":\"ver_123\",\"code\":\"000000\"\x7d" then
    .ok { VerificationID := "ver_123", Code := "000000" }
  else if body = "\x7b\"verificationId\":\"ver_123\"\x7d" then
    .ok { VerificationID := "ver_123", Code := "" }
  else .error "invalid character"

/-- A provider for examples that answers every call with the given id and status. -/
def okClient (id status : String) : Client :=
  { Send := fun _ => .ok { ID := id }, Check := fun _ _ => .ok { Status := status } }

/-- A provider for examples that fails every call with the given message. -/
def failingClient (msg : String) : Client :=
  { Send := fun _ => .error msg, Check := fun _ _ => .error msg }

/-- Example request body for the send route. -/
def sendBody : String := "\x7b\"phone\":\"+15551234567\"\x7d"

/-- Example request body for the verify route. -/
def verifyBody : String := "\x7b\"verificationId\":\"ver_123\",\"code\":\"000000\"\x7d"

/-! ## Path lemmas: one equation per branch of each handler -/

theorem sendOTP_wrongMethod (decode : String → Except String SendOTPRequest)
    (client : Client) (r : Request) (hm : r.Method ≠ MethodPost) :
    sendOTP decode client r =
      { reply := .httpError "Method not allowed" StatusMethodNotAllowed, effects := [] } := by
  simp [sendOTP, hm]

theorem sendOTP_malformed (decode : String → Except String SendOTPRequest)
    (client : Client) (r : Request) (e : String) (hm : r.Method = MethodPost)
    (hd : decode r.Body = .error e) :
    sendOTP decode client r =
      { reply := .json (respondJSON StatusBadRequest
          { Success := false, Error := "Invalid request body" }),
        effects := [.decode r.Body] } := by
  simp [sendOTP, hm, hd]

theorem sendOTP_noPhone (decode : String → Except String SendOTPRequest)
    (client : Client) (r : Request) (req : SendOTPRequest) (hm : r.Method = MethodPost)
    (hd : decode r.Body = .ok req) (hp : req.Phone = "") :
    sendOTP decode client r =
      { reply := .json (respondJSON StatusBadRequest
          { Success := false, Error := "Phone number is required" }),
        effects := [.decode r.Body] } := by
  simp [sendOTP, hm, hd, hp]

theorem sendOTP_upstream (decode : String → Except String SendOTPRequest)
    (client : Client) (r : Request) (req : SendOTPRequest) (err : String)
    (hm : r.Method = MethodPost) (hd : decode r.Body = .ok req) (hp : req.Phone ≠ "")
    (hs : client.Send { To := req.Phone } = .error err) :
    sendOTP decode client r =
      { reply := .json (respondJSON StatusInternalServerError
          { Success := false, Error := sprintfV "Failed to send OTP: " err }),
        effects := [.decode r.Body, .send { To := req.Phone }] } := by
  simp [sendOTP, hm, hd, hp, hs]

theorem sendOTP_sent (decode : String → Except String SendOTPRequest)
    (client : Client) (r : Request) (req : SendOTPRequest) (v : SendVerificationResult)
    (hm : r.Method = MethodPost) (hd : decode r.Body = .ok req) (hp : req.Phone ≠ "")
    (hs : client.Send { To := req.Phone } = .ok v) :
    sendOTP decode client r =
      { reply := .json (respondJSON StatusOK { Success := true, VerificationID := v.ID }),
        effects := [.decode r.Body, .send { To := req.Phone }] } := by
  simp [sendOTP, hm, hd, hp, hs]

theorem verifyOTP_wrongMethod (decode : String → Except String VerifyOTPRequest)
    (client : Client) (r : Request) (hm : r.Method ≠ MethodPost) :
    verifyOTP decode client r =
      { reply := .httpError "Method not allowed" StatusMethodNotAllowed, effects := [] } := by
  simp [verifyOTP, hm]

theorem verifyOTP_malformed (decode : String → Except String VerifyOTPRequest)
    (client : Client) (r : Request) (e : String) (hm : r.Method = MethodPost)
    (hd : decode r.Body = .error e) :
    verifyOTP decode client r =
      { reply := .json (respondJSON StatusBadRequest
          { Success := false, Error := "Invalid request body" }),
        effects := [.decode r.Body] } := by
  simp [verifyOTP, hm, hd]

theorem verifyOTP_missingField (decode : String → Except String VerifyOTPRequest)
    (client : Client) (r : Request) (req : VerifyOTPRequest) (hm : r.Method = MethodPost)
    (hd : decode r.Body = .ok req) (hf : req.VerificationID = "" ∨ req.Code = "") :
    verifyOTP decode client r =
      { reply := .json (respondJSON StatusBadRequest
          { Success := false, Error := "Verification ID and code are required" }),
        effects := [.decode r.Body] } := by
  simp [verifyOTP, hm, hd, hf]

theorem verifyOTP_upstream (decode : String → Except String VerifyOTPRequest)
    (client : Client) (r : Request) (req : VerifyOTPRequest) (err : String)
    (hm : r.Method = MethodPost) (hd : decode r.Body = .ok req)
    (hi : req.VerificationID ≠ "") (hc : req.Code ≠ "")
    (hs : client.Check req.VerificationID { Code := req.Code } = .error err) :
    verifyOTP decode client r =
      { reply := .json (respondJSON StatusInternalServerError
          { Success := false, Error := sprintfV "Failed to verify OTP: " err }),
        effects := [.decode r.Body, .check req.VerificationID { Code := req.Code }] } := by
  simp [verifyOTP, hm, hd, hi, hc, hs]

theorem verifyOTP_verified (decode : String → Except String VerifyOTPRequest)
    (client : Client) (r : Request) (req : VerifyOTPRequest) (res : CheckVerificationResult)
    (hm : r.Method = MethodPost) (hd : decode r.Body = .ok req)
    (hi : req.VerificationID ≠ "") (hc : req.Code ≠ "")
    (hs : client.Check req.VerificationID { Code := req.Code } = .ok res)
    (hv : res.Status = "verified") :
    verifyOTP decode client r =
      { reply := .json (respondJSON StatusOK
          { Success := true, Status := res.Status,
            Message := "Phone number verified successfully!" }),
        effects := [.decode r.Body, .check req.VerificationID { Code := req.Code }] } := by
  simp [verifyOTP, hm, hd, hi, hc, hs, hv]

theorem verifyOTP_notVerified (decode : String → Except String VerifyOTPRequest)
    (client : Client) (r : Request) (req : VerifyOTPRequest) (res : CheckVerificationResult)
    (hm : r.Method = MethodPost) (hd : decode r.Body = .ok req)
    (hi : req.VerificationID ≠ "") (hc : req.Code ≠ "")
    (hs : client.Check req.VerificationID { Code := req.Code } = .ok res)
    (hv : res.Status ≠ "verified") :
    verifyOTP decode client r =
      { reply := .json (respondJSON StatusOK
          { Success := false, Status := res.Status, Error := "Invalid verification code" }),
        effects := [.decode r.Body, .check req.VerificationID { Code := req.Code }] } := by
  simp [verifyOTP, hm, hd, hi, hc, hs, hv]

/-! ## Auxiliary facts about strings and effect lists -/

theorem sprintfV_ne_empty (pre err : String) (hpre : pre ≠ "") : sprintfV pre err ≠ "" := by
  intro h
  apply hpre
  have hd : (sprintfV pre err).data = [] := by rw [h]
  rw [sprintfV, String.data_append, List.append_eq_nil] at hd
  exact String.ext hd.1

theorem sprintfV_contains (pre err : String) : containsSubstr (sprintfV pre err) err := by
  unfold containsSubstr sprintfV
  rw [String.data_append]
  exact ⟨pre.data, [], by simp⟩

/-! ## Exhaustive case analysis of each handler -/

/-- Every run of `sendOTP` follows exactly one of its five return paths. -/
theorem sendOTP_cases (decode : String → Except String SendOTPRequest)
    (client : Client) (r : Request) :
    (r.Method ≠ MethodPost ∧ sendOTP decode client r =
        { reply := .httpError "Method not allowed" StatusMethodNotAllowed, effects := [] }) ∨
    (r.Method = MethodPost ∧ ∃ e, decode r.Body = .error e ∧ sendOTP decode client r =
        { reply := .json (respondJSON StatusBadRequest
            { Success := false, Error := "Invalid request body" }),
          effects := [.decode r.Body] }) ∨
    (r.Method = MethodPost ∧ ∃ req, decode r.Body = .ok req ∧ req.Phone = "" ∧
      sendOTP decode client r =
        { reply := .json (respondJSON StatusBadRequest
            { Success := false, Error := "Phone number is required" }),
          effects := [.decode r.Body] }) ∨
    (r.Method = MethodPost ∧ ∃ req err, decode r.Body = .ok req ∧ req.Phone ≠ "" ∧
      client.Send { To := req.Phone } = .error err ∧
      sendOTP decode client r =
        { reply := .json (respondJSON StatusInternalServerError
            { Success := false, Error := sprintfV "Failed to send OTP: " err }),
          effects := [.decode r.Body, .send { To := req.Phone }] }) ∨
    (r.Method = MethodPost ∧ ∃ req v, decode r.Body = .ok req ∧ req.Phone ≠ "" ∧
      client.Send { To := req.Phone } = .ok v ∧
      sendOTP decode client r =
        { reply := .json (respondJSON StatusOK { Success := true, VerificationID := v.ID }),
          effects := [.decode r.Body, .send { To := req.Phone }] }) := by
  by_cases hm : r.Method = MethodPost
  · right
    cases hd : decode r.Body with
    | error e => exact Or.inl ⟨hm, e, rfl, sendOTP_malformed decode client r e hm hd⟩
    | ok req =>
      right
      by_cases hp : req.Phone = ""
      · exact Or.inl ⟨hm, req, rfl, hp, sendOTP_noPhone decode client r req hm hd hp⟩
      · right
        cases hs : client.Send { To := req.Phone } with
        | error err =>
          exact Or.inl ⟨hm, req, err, rfl, hp, hs,
            sendOTP_upstream decode client r req err hm hd hp hs⟩
        | ok v =>
          exact Or.inr ⟨hm, req, v, rfl, hp, hs, sendOTP_sent decode client r req v hm hd hp hs⟩
  · exact Or.inl ⟨hm, sendOTP_wrongMethod decode client r hm⟩

/-- Every run of `verifyOTP` follows exactly one of its six return paths. -/
theorem verifyOTP_cases (decode : String → Except String VerifyOTPRequest)
    (client : Client) (r : Request) :
    (r.Method ≠ MethodPost ∧ verifyOTP decode client r =
        { reply := .httpError "Method not allowed" StatusMethodNotAllowed, effects := [] }) ∨
    (r.Method = MethodPost ∧ ∃ e, decode r.Body = .error e ∧ verifyOTP decode client r =
        { reply := .json (respondJSON StatusBadRequest
            { Success := false, Error := "Invalid request body" }),
          effects := [.decode r.Body] }) ∨
    (r.Method = MethodPost ∧ ∃ req, decode r.Body = .ok req ∧
      (req.VerificationID = "" ∨ req.Code = "") ∧
      verifyOTP decode client r =
        { reply := .json (respondJSON StatusBadRequest
            { Success := false, Error := "Verification ID and code are required" }),
          effects := [.decode r.Body] }) ∨
    (r.Method = MethodPost ∧ ∃ req err, decode r.Body = .ok req ∧
      req.VerificationID ≠ "" ∧ req.Code ≠ "" ∧
      client.Check req.VerificationID { Code := req.Code } = .error err ∧
      verifyOTP decode client r =
        { reply := .json (respondJSON StatusInternalServerError
            { Success := false, Error := sprintfV "Failed to verify OTP: " err }),
          effects := [.decode r.Body, .check req.VerificationID { Code := req.Code }] }) ∨
    (r.Method = MethodPost ∧ ∃ req res, decode r.Body = .ok req ∧
      req.VerificationID ≠ "" ∧ req.Code ≠ "" ∧
      client.Check req.VerificationID { Code := req.Code } = .ok res ∧
      res.Status = "verified" ∧
      verifyOTP decode client r =
        { reply := .json (respondJSON StatusOK
            { Success := true, Status := res.Status,
              Message := "Phone number verified successfully!" }),
          effects := [.decode r.Body, .check req.VerificationID { Code := req.Code }] }) ∨
    (r.Method = MethodPost ∧ ∃ req res, decode r.Body = .ok req ∧
      req.VerificationID ≠ "" ∧ req.Code ≠ "" ∧
      client.Check req.VerificationID { Code := req.Code } = .ok res ∧
      res.Status ≠ "verified" ∧
      verifyOTP decode client r =
        { reply := .json (respondJSON StatusOK
            { Success := false, Status := res.Status, Error := "Invalid verification code" }),
          effects := [.decode r.Body, .check req.VerificationID { Code := req.Code }] }) := by
  by_cases hm : r.Method = MethodPost
  · right
    cases hd : decode r.Body with
    | error e => exact Or.inl ⟨hm, e, rfl, verifyOTP_malformed decode client r e hm hd⟩
    | ok req =>
      right
      by_cases hf : req.VerificationID = "" ∨ req.Code = ""
      · exact Or.inl ⟨hm, req, rfl, hf, verifyOTP_missingField decode client r req hm hd hf⟩
      · right
        have hi : req.VerificationID ≠ "" := fun h => hf (Or.inl h)
        have hc : req.Code ≠ "" := fun h => hf (Or.inr h)
        cases hs : client.Check req.VerificationID { Code := req.Code } with
        | error err =>
          exact Or.inl ⟨hm, req, err, rfl, hi, hc, hs,
            verifyOTP_upstream decode client r req err hm hd hi hc hs⟩
        | ok res =>
          right
          by_cases hv : res.Status = "verified"
          · exact Or.inl ⟨hm, req, res, rfl, hi, hc, hs, hv,
              verifyOTP_verified decode client r req res hm hd hi hc hs hv⟩
          · exact Or.inr ⟨hm, req, res, rfl, hi, hc, hs, hv,
              verifyOTP_notVerified decode client r req res hm hd hi hc hs hv⟩
  · exact Or.inl ⟨hm, verifyOTP_wrongMethod decode client r hm⟩

/-! ## Verified properties -/

/-- The comparison with "verified" is exact: a provider status that differs only in
letter case yields the non-success envelope. -/
theorem verifyOTP_status_case_sensitive :
    (verifyOTP sampleVerifyDecode (okClient "" "Verified") ⟨"POST", verifyBody⟩).reply =
      .json { contentType := "application/json", status := 200,
              data := { Success := false, Status := "Verified",
                        Error := "Invalid verification code", Message := "" } } := by
  decide

/-- C1: for every POST request handled by `verifyOTP`, whatever the decoder and the
provider do, a JSON envelope is written, and its `Success` is true if and only if the
body decoded to a request on which the provider's check operation was invoked (it is the
only provider call), returned no error, and reported a status equal to the literal
string "verified".  In every other outcome `Success` is false. -/
theorem verifyOTP_success_iff_verified (decode : String → Except String VerifyOTPRequest)
    (client : Client) (r : Request) (hm : r.Method = MethodPost) :
    ∃ j, (verifyOTP decode client r).reply = .json j ∧
      (j.data.Success = true ↔
        ∃ req res, decode r.Body = .ok req ∧
          providerCalls (verifyOTP decode client r).effects =
            [.check req.VerificationID { Code := req.Code }] ∧
          client.Check req.VerificationID { Code := req.Code } = .ok res ∧
          res.Status = "verified") := by
  rcases verifyOTP_cases decode client r with
    ⟨hn, _⟩ | ⟨_, e, hd, h⟩ | ⟨_, req, hd, hf, h⟩ | ⟨_, req, err, hd, hi, hc, hs, h⟩ |
    ⟨_, req, res, hd, hi, hc, hs, hv, h⟩ | ⟨_, req, res, hd, hi, hc, hs, hv, h⟩
  · exact absurd hm hn
  · refine ⟨_, by rw [h], ?_⟩
    simp [respondJSON, hd]
  · refine ⟨_, by rw [h], ?_⟩
    simp [respondJSON, hd, h, providerCalls]
  · refine ⟨_, by rw [h], ?_⟩
    simp [respondJSON, hd, hs]
  · refine ⟨_, by rw [h], ?_⟩
    simp [respondJSON, hd, hs, h, hv, providerCalls]
  · refine ⟨_, by rw [h], ?_⟩
    simp [respondJSON, hd, hs, hv]

/-- Witness for C1: a POST with a well-formed body and a provider reporting "verified". -/
theorem verifyOTP_success_iff_verified_witness :
    (Request.mk "POST" verifyBody).Method = MethodPost ∧
    ∃ j, (verifyOTP sampleVerifyDecode (okClient "ver_123" "verified")
        ⟨"POST", verifyBody⟩).reply = .json j ∧
      (j.data.Success = true ↔
        ∃ req res, sampleVerifyDecode (Request.mk "POST" verifyBody).Body = .ok req ∧
          providerCalls (verifyOTP sampleVerifyDecode (okClient "ver_123" "verified")
            ⟨"POST", verifyBody⟩).effects =
            [.check req.VerificationID { Code := req.Code }] ∧
          (okClient "ver_123" "verified").Check req.VerificationID { Code := req.Code }
            = .ok res ∧
          res.Status = "verified") :=
  ⟨by decide, verifyOTP_success_iff_verified sampleVerifyDecode
    (okClient "ver_123" "verified") ⟨"POST", verifyBody⟩ (by decide)⟩

/-- C2 (as amended): for every POST request to `sendOTP` whose body decodes to a request
with a non-empty `Phone`, if the provider's send call (the only provider call, made with
`To` equal to that phone) returns without error, the reply is HTTP 200 with `Success`
true, an empty `Error`, and a `VerificationID` equal to the ID the provider returned; it
is non-empty whenever the provider's ID is non-empty. -/
theorem sendOTP_provider_success (decode : String → Except String SendOTPRequest)
    (client : Client) (r : Request) (req : SendOTPRequest) (v : SendVerificationResult)
    (hm : r.Method = MethodPost) (hd : decode r.Body = .ok req) (hp : req.Phone ≠ "")
    (hs : client.Send { To := req.Phone } = .ok v) :
    ∃ j, (sendOTP decode client r).reply = .json j ∧
      providerCalls (sendOTP decode client r).effects = [.send { To := req.Phone }] ∧
      j.contentType = "application/json" ∧ j.status = 200 ∧
      j.data.Success = true ∧ j.data.Error = "" ∧ j.data.VerificationID = v.ID ∧
      (v.ID ≠ "" → j.data.VerificationID ≠ "") := by
  rw [sendOTP_sent decode client r req v hm hd hp hs]
  exact ⟨_, rfl, rfl, rfl, rfl, rfl, rfl, rfl, fun h => h⟩

/-- Witness for C2: the example of the specification, provider id "ver_123". -/
theorem sendOTP_provider_success_witness :
    ∃ j, (sendOTP sampleSendDecode (okClient "ver_123" "") ⟨"POST", sendBody⟩).reply
        = .json j ∧
      providerCalls (sendOTP sampleSendDecode (okClient "ver_123" "")
        ⟨"POST", sendBody⟩).effects = [.send { To := "+15551234567" }] ∧
      j.contentType = "application/json" ∧ j.status = 200 ∧
      j.data.Success = true ∧ j.data.Error = "" ∧ j.data.VerificationID = "ver_123" ∧
      ("ver_123" ≠ "" → j.data.VerificationID ≠ "") :=
  sendOTP_provider_success sampleSendDecode (okClient "ver_123" "") ⟨"POST", sendBody⟩
    { Phone := "+15551234567" } { ID := "ver_123" } (by decide) rfl (by decide) rfl

/-- Counterexample to C2 as stated: a well-formed POST whose provider call returns
without error but with an empty ID yields HTTP 200, `Success` true, and an empty
`VerificationID`. -/
theorem sendOTP_emptyID_counterexample :
    (Request.mk "POST" sendBody).Method = MethodPost ∧
    sampleSendDecode (Request.mk "POST" sendBody).Body = .ok { Phone := "+15551234567" } ∧
    (SendOTPRequest.mk "+15551234567").Phone ≠ "" ∧
    (okClient "" "").Send { To := "+15551234567" } = .ok { ID := "" } ∧
    (sendOTP sampleSendDecode (okClient "" "") ⟨"POST", sendBody⟩).reply =
      .json { contentType := "application/json", status := 200,
              data := { VerificationID := "", Success := true, Error := "" } } ∧
    ¬ ∃ j, (sendOTP sampleSendDecode (okClient "" "") ⟨"POST", sendBody⟩).reply = .json j ∧
      j.data.VerificationID ≠ "" := by
  have hr : (sendOTP sampleSendDecode (okClient "" "") ⟨"POST", sendBody⟩).reply =
      .json { contentType := "application/json", status := 200,
              data := { VerificationID := "", Success := true, Error := "" } } := by decide
  refine ⟨by decide, rfl, by decide, rfl, hr, ?_⟩
  rintro ⟨j, hj, hne⟩
  rw [hr] at hj
  cases hj
  exact hne rfl

/-- C3: for every POST request to `verifyOTP` with non-empty `VerificationID` and `Code`,
if the provider's check call returns without error a status that is a non-empty string
other than "verified", the reply is HTTP 200 with `Success` false, `Status` equal to the
provider's status, `Error` equal to "Invalid verification code", and an empty `Message`. -/
theorem verifyOTP_other_status (decode : String → Except String VerifyOTPRequest)
    (client : Client) (r : Request) (req : VerifyOTPRequest) (res : CheckVerificationResult)
    (hm : r.Method = MethodPost) (hd : decode r.Body = .ok req)
    (hi : req.VerificationID ≠ "") (hc : req.Code ≠ "")
    (hs : client.Check req.VerificationID { Code := req.Code } = .ok res)
    (_hne : res.Status ≠ "") (hv : res.Status ≠ "verified") :
    ∃ j, (verifyOTP decode client r).reply = .json j ∧
      j.contentType = "application/json" ∧ j.status = 200 ∧
      j.data.Success = false ∧ j.data.Status = res.Status ∧
      j.data.Error = "Invalid verification code" ∧ j.data.Message = "" := by
  rw [verifyOTP_notVerified decode client r req res hm hd hi hc hs hv]
  exact ⟨_, rfl, rfl, rfl, rfl, rfl, rfl, rfl⟩

/-- Witness for C3: the example of the specification, provider status "failed". -/
theorem verifyOTP_other_status_witness :
    ∃ j, (verifyOTP sampleVerifyDecode (okClient "" "failed") ⟨"POST", verifyBody⟩).reply
        = .json j ∧
      j.contentType = "application/json" ∧ j.status = 200 ∧
      j.data.Success = false ∧ j.data.Status = "failed" ∧
      j.data.Error = "Invalid verification code" ∧ j.data.Message = "" :=
  verifyOTP_other_status sampleVerifyDecode (okClient "" "failed") ⟨"POST", verifyBody⟩
    { VerificationID := "ver_123", Code := "000000" } { Status := "failed" }
    (by decide) rfl (by decide) (by decide) rfl (by decide) (by decide)

/-- C4: for every POST request to `verifyOTP` with non-empty `VerificationID` and `Code`,
if the provider's check call returns without error and its status is exactly "verified",
the reply is HTTP 200 with `Success` true, `Status` equal to "verified", a non-empty
`Message`, and an empty `Error`. -/
theorem verifyOTP_verified_status (decode : String → Except String VerifyOTPRequest)
    (client : Client) (r : Request) (req : VerifyOTPRequest) (res : CheckVerificationResult)
    (hm : r.Method = MethodPost) (hd : decode r.Body = .ok req)
    (hi : req.VerificationID ≠ "") (hc : req.Code ≠ "")
    (hs : client.Check req.VerificationID { Code := req.Code } = .ok res)
    (hv : res.Status = "verified") :
    ∃ j, (verifyOTP decode client r).reply = .json j ∧
      j.contentType = "application/json" ∧ j.status = 200 ∧
      j.data.Success = true ∧ j.data.Status = "verified" ∧
      j.data.Message = "Phone number verified successfully!" ∧ j.data.Message ≠ "" ∧
      j.data.Error = "" := by
  rw [verifyOTP_verified decode client r req res hm hd hi hc hs hv]
  have hmsg : "Phone number verified successfully!" ≠ "" := by decide
  exact ⟨_, rfl, rfl, rfl, rfl, hv, rfl, hmsg, rfl⟩

/-- Witness for C4: a provider that reports "verified". -/
theorem verifyOTP_verified_status_witness :
    ∃ j, (verifyOTP sampleVerifyDecode (okClient "" "verified") ⟨"POST", verifyBody⟩).reply
        = .json j ∧
      j.contentType = "application/json" ∧ j.status = 200 ∧
      j.data.Success = true ∧ j.data.Status = "verified" ∧
      j.data.Message = "Phone number verified successfully!" ∧ j.data.Message ≠ "" ∧
      j.data.Error = "" :=
  verifyOTP_verified_status sampleVerifyDecode (okClient "" "verified")
    ⟨"POST", verifyBody⟩ { VerificationID := "ver_123", Code := "000000" }
    { Status := "verified" } (by decide) rfl (by decide) (by decide) rfl rfl

/-- C5: for every POST request to `sendOTP` or to `verifyOTP` whose body fails to decode,
the reply is HTTP 400 with a JSON envelope whose `Success` is false and whose `Error` is
non-empty, and the provider is not invoked. -/
theorem malformed_body_badRequest (decodeS : String → Except String SendOTPRequest)
    (decodeV : String → Except String VerifyOTPRequest) (client : Client) (r : Request)
    (hm : r.Method = MethodPost) :
    (∀ e, decodeS r.Body = .error e →
      ∃ j, (sendOTP decodeS client r).reply = .json j ∧
        j.contentType = "application/json" ∧ j.status = 400 ∧
        j.data.Success = false ∧ j.data.Error ≠ "" ∧
        providerCalls (sendOTP decodeS client r).effects = []) ∧
    (∀ e, decodeV r.Body = .error e →
      ∃ j, (verifyOTP decodeV client r).reply = .json j ∧
        j.contentType = "application/json" ∧ j.status = 400 ∧
        j.data.Success = false ∧ j.data.Error ≠ "" ∧
        providerCalls (verifyOTP decodeV client r).effects = []) := by
  constructor
  · intro e hd
    rw [sendOTP_malformed decodeS client r e hm hd]
    have herr : "Invalid request body" ≠ "" := by decide
    exact ⟨_, rfl, rfl, rfl, rfl, herr, rfl⟩
  · intro e hd
    rw [verifyOTP_malformed decodeV client r e hm hd]
    have herr : "Invalid request body" ≠ "" := by decide
    exact ⟨_, rfl, rfl, rfl, rfl, herr, rfl⟩

/-- Witness for C5: a POST whose body is not JSON, with a provider that would succeed. -/
theorem malformed_body_badRequest_witness :
    sampleSendDecode "not json" = .error "invalid character" ∧
    sampleVerifyDecode "not json" = .error "invalid character" ∧
    (∃ j, (sendOTP sampleSendDecode (okClient "ver_123" "verified")
        ⟨"POST", "not json"⟩).reply = .json j ∧
      j.contentType = "application/json" ∧ j.status = 400 ∧
      j.data.Success = false ∧ j.data.Error ≠ "" ∧
      providerCalls (sendOTP sampleSendDecode (okClient "ver_123" "verified")
        ⟨"POST", "not json"⟩).effects = []) ∧
    (∃ j, (verifyOTP sampleVerifyDecode (okClient "ver_123" "verified")
        ⟨"POST", "not json"⟩).reply = .json j ∧
      j.contentType = "application/json" ∧ j.status = 400 ∧
      j.data.Success = false ∧ j.data.Error ≠ "" ∧
      providerCalls (verifyOTP sampleVerifyDecode (okClient "ver_123" "verified")
        ⟨"POST", "not json"⟩).effects = []) :=
  ⟨rfl, rfl,
    (malformed_body_badRequest sampleSendDecode sampleVerifyDecode
      (okClient "ver_123" "verified") ⟨"POST", "not json"⟩ (by decide)).1 _ rfl,
    (malformed_body_badRequest sampleSendDecode sampleVerifyDecode
      (okClient "ver_123" "verified") ⟨"POST", "not json"⟩ (by decide)).2 _ rfl⟩

/-- C6: for every POST request to `sendOTP` whose body decodes successfully to a request
with an empty `Phone`, the reply is HTTP 400 with `Success` false and a non-empty `Error`,
and the provider's send operation is not invoked. -/
theorem sendOTP_empty_phone (decode : String → Except String SendOTPRequest)
    (client : Client) (r : Request) (req : SendOTPRequest)
    (hm : r.Method = MethodPost) (hd : decode r.Body = .ok req) (hp : req.Phone = "") :
    ∃ j, (sendOTP decode client r).reply = .json j ∧
      j.contentType = "application/json" ∧ j.status = 400 ∧
      j.data.Success = false ∧ j.data.Error ≠ "" ∧
      providerCalls (sendOTP decode client r).effects = [] := by
  rw [sendOTP_noPhone decode client r req hm hd hp]
  have herr : "Phone number is required" ≠ "" := by decide
  exact ⟨_, rfl, rfl, rfl, rfl, herr, rfl⟩

/-- Witness for C6: a body that is an empty JSON object, decoded to an empty phone. -/
theorem sendOTP_empty_phone_witness :
    sampleSendDecode "\x7b\x7d" = .ok { Phone := "" } ∧
    ∃ j, (sendOTP sampleSendDecode (okClient "ver_123" "") ⟨"POST", "\x7b\x7d"⟩).reply
        = .json j ∧
      j.contentType = "application/json" ∧ j.status = 400 ∧
      j.data.Success = false ∧ j.data.Error ≠ "" ∧
      providerCalls (sendOTP sampleSendDecode (okClient "ver_123" "")
        ⟨"POST", "\x7b\x7d"⟩).effects = [] :=
  ⟨rfl, sendOTP_empty_phone sampleSendDecode (okClient "ver_123" "") ⟨"POST", "\x7b\x7d"⟩
    { Phone := "" } (by decide) rfl rfl⟩

/-- C7: for every POST request to `verifyOTP` whose body decodes successfully, if the
`VerificationID` is empty or the `Code` is empty, the reply is HTTP 400 with `Success`
false and a non-empty `Error`, and the provider's check operation is not invoked;
conversely, when both are non-empty, the provider's check operation is invoked (once)
with exactly that identifier and that code. -/
theorem verifyOTP_required_fields (decode : String → Except String VerifyOTPRequest)
    (client : Client) (r : Request) (req : VerifyOTPRequest)
    (hm : r.Method = MethodPost) (hd : decode r.Body = .ok req) :
    (req.VerificationID = "" ∨ req.Code = "" →
      ∃ j, (verifyOTP decode client r).reply = .json j ∧
        j.contentType = "application/json" ∧ j.status = 400 ∧
        j.data.Success = false ∧ j.data.Error ≠ "" ∧
        providerCalls (verifyOTP decode client r).effects = []) ∧
    (req.VerificationID ≠ "" ∧ req.Code ≠ "" →
      providerCalls (verifyOTP decode client r).effects =
        [.check req.VerificationID { Code := req.Code }]) := by
  constructor
  · intro hf
    rw [verifyOTP_missingField decode client r req hm hd hf]
    have herr : "Verification ID and code are required" ≠ "" := by decide
    exact ⟨_, rfl, rfl, rfl, rfl, herr, rfl⟩
  · rintro ⟨hi, hc⟩
    rcases verifyOTP_cases decode client r with
      ⟨hn, _⟩ | ⟨_, e, hd2, _⟩ | ⟨_, q, hd2, hf, _⟩ | ⟨_, q, err, hd2, _, _, _, h⟩ |
      ⟨_, q, res, hd2, _, _, _, _, h⟩ | ⟨_, q, res, hd2, _, _, _, _, h⟩
    · exact absurd hm hn
    · rw [hd] at hd2; cases hd2
    · rw [hd] at hd2; cases hd2
      rcases hf with hf | hf
      · exact absurd hf hi
      · exact absurd hf hc
    · rw [hd] at hd2; cases hd2; rw [h]; rfl
    · rw [hd] at hd2; cases hd2; rw [h]; rfl
    · rw [hd] at hd2; cases hd2; rw [h]; rfl

/-- Witness for C7: one POST whose body lacks the code, one with both fields present. -/
theorem verifyOTP_required_fields_witness :
    (∃ j, (verifyOTP sampleVerifyDecode (okClient "" "verified")
        ⟨"POST", "\x7b\"verificationId\":\"ver_123\"\x7d"⟩).reply = .json j ∧
      j.contentType = "application/json" ∧ j.status = 400 ∧
      j.data.Success = false ∧ j.data.Error ≠ "" ∧
      providerCalls (verifyOTP sampleVerifyDecode (okClient "" "verified")
        ⟨"POST", "\x7b\"verificationId\":\"ver_123\"\x7d"⟩).effects = []) ∧
    providerCalls (verifyOTP sampleVerifyDecode (okClient "" "verified")
        ⟨"POST", verifyBody⟩).effects = [.check "ver_123" { Code := "000000" }] :=
  ⟨(verifyOTP_required_fields sampleVerifyDecode (okClient "" "verified")
      ⟨"POST", "\x7b\"verificationId\":\"ver_123\"\x7d"⟩
      { VerificationID := "ver_123", Code := "" } (by decide) rfl).1 (Or.inr rfl),
   (verifyOTP_required_fields sampleVerifyDecode (okClient "" "verified")
      ⟨"POST", verifyBody⟩ { VerificationID := "ver_123", Code := "000000" }
      (by decide) rfl).2 ⟨by decide, by decide⟩⟩

/-- C8: for either operation, for every validated POST request on which the provider
call returns an error, the reply is HTTP 500 with a JSON envelope whose `Success` is
false and whose `Error` contains the provider error's message as a substring; for
`sendOTP` the `VerificationID` is empty, for `verifyOTP` the `Status` and the `Message`
are empty. -/
theorem provider_error_internal (client : Client) (r : Request) (err : String)
    (hm : r.Method = MethodPost) :
    (∀ decode req, decode r.Body = .ok req → req.Phone ≠ "" →
      client.Send { To := req.Phone } = .error err →
      ∃ j, (sendOTP decode client r).reply = .json j ∧
        j.contentType = "application/json" ∧ j.status = 500 ∧
        j.data.Success = false ∧ containsSubstr j.data.Error err ∧
        j.data.Error = "Failed to send OTP: " ++ err ∧ j.data.VerificationID = "") ∧
    (∀ decode req, decode r.Body = .ok req → req.VerificationID ≠ "" → req.Code ≠ "" →
      client.Check req.VerificationID { Code := req.Code } = .error err →
      ∃ j, (verifyOTP decode client r).reply = .json j ∧
        j.contentType = "application/json" ∧ j.status = 500 ∧
        j.data.Success = false ∧ containsSubstr j.data.Error err ∧
        j.data.Error = "Failed to verify OTP: " ++ err ∧
        j.data.Status = "" ∧ j.data.Message = "") := by
  constructor
  · intro decode req hd hp hs
    rw [sendOTP_upstream decode client r req err hm hd hp hs]
    exact ⟨_, rfl, rfl, rfl, rfl, sprintfV_contains _ err, rfl, rfl⟩
  · intro decode req hd hi hc hs
    rw [verifyOTP_upstream decode client r req err hm hd hi hc hs]
    exact ⟨_, rfl, rfl, rfl, rfl, sprintfV_contains _ err, rfl, rfl, rfl⟩

/-- Witness for C8: a provider that fails every call with "rate limit exceeded". -/
theorem provider_error_internal_witness :
    (∃ j, (sendOTP sampleSendDecode (failingClient "rate limit exceeded")
        ⟨"POST", sendBody⟩).reply = .json j ∧
      j.contentType = "application/json" ∧ j.status = 500 ∧
      j.data.Success = false ∧ containsSubstr j.data.Error "rate limit exceeded" ∧
      j.data.Error = "Failed to send OTP: " ++ "rate limit exceeded" ∧
      j.data.VerificationID = "") ∧
    (∃ j, (verifyOTP sampleVerifyDecode (failingClient "rate limit exceeded")
        ⟨"POST", verifyBody⟩).reply = .json j ∧
      j.contentType = "application/json" ∧ j.status = 500 ∧
      j.data.Success = false ∧ containsSubstr j.data.Error "rate limit exceeded" ∧
      j.data.Error = "Failed to verify OTP: " ++ "rate limit exceeded" ∧
      j.data.Status = "" ∧ j.data.Message = "") :=
  ⟨(provider_error_internal (failingClient "rate limit exceeded") ⟨"POST", sendBody⟩
      "rate limit exceeded" (by decide)).1 sampleSendDecode { Phone := "+15551234567" }
      rfl (by decide) rfl,
   (provider_error_internal (failingClient "rate limit exceeded") ⟨"POST", verifyBody⟩
      "rate limit exceeded" (by decide)).2 sampleVerifyDecode
      { VerificationID := "ver_123", Code := "000000" } rfl (by decide) (by decide) rfl⟩

/-- C9: for every request to `sendOTP` or to `verifyOTP` whose method is not POST,
whatever its body, the reply is the plain-text error reply with message
"Method not allowed" and code 405 (not a JSON envelope), the body is not decoded, and
the provider is not invoked. -/
theorem wrong_method_notAllowed (decodeS : String → Except String SendOTPRequest)
    (decodeV : String → Except String VerifyOTPRequest) (client : Client) (r : Request)
    (hm : r.Method ≠ MethodPost) :
    ((sendOTP decodeS client r).reply = .httpError "Method not allowed" 405 ∧
      (∀ j, (sendOTP decodeS client r).reply ≠ .json j) ∧
      decodeSteps (sendOTP decodeS client r).effects = [] ∧
      providerCalls (sendOTP decodeS client r).effects = []) ∧
    ((verifyOTP decodeV client r).reply = .httpError "Method not allowed" 405 ∧
      (∀ j, (verifyOTP decodeV client r).reply ≠ .json j) ∧
      decodeSteps (verifyOTP decodeV client r).effects = [] ∧
      providerCalls (verifyOTP decodeV client r).effects = []) := by
  rw [sendOTP_wrongMethod decodeS client r hm, verifyOTP_wrongMethod decodeV client r hm]
  exact ⟨⟨rfl, fun _ h => Reply.noConfusion h, rfl, rfl⟩,
    ⟨rfl, fun _ h => Reply.noConfusion h, rfl, rfl⟩⟩

/-- Witness for C9: a GET carrying a well-formed body, with a provider that would
succeed. -/
theorem wrong_method_notAllowed_witness :
    ((sendOTP sampleSendDecode (okClient "ver_123" "verified") ⟨"GET", sendBody⟩).reply
        = .httpError "Method not allowed" 405 ∧
      (∀ j, (sendOTP sampleSendDecode (okClient "ver_123" "verified")
        ⟨"GET", sendBody⟩).reply ≠ .json j) ∧
      decodeSteps (sendOTP sampleSendDecode (okClient "ver_123" "verified")
        ⟨"GET", sendBody⟩).effects = [] ∧
      providerCalls (sendOTP sampleSendDecode (okClient "ver_123" "verified")
        ⟨"GET", sendBody⟩).effects = []) ∧
    ((verifyOTP sampleVerifyDecode (okClient "ver_123" "verified")
        ⟨"GET", sendBody⟩).reply = .httpError "Method not allowed" 405 ∧
      (∀ j, (verifyOTP sampleVerifyDecode (okClient "ver_123" "verified")
        ⟨"GET", sendBody⟩).reply ≠ .json j) ∧
      decodeSteps (verifyOTP sampleVerifyDecode (okClient "ver_123" "verified")
        ⟨"GET", sendBody⟩).effects = [] ∧
      providerCalls (verifyOTP sampleVerifyDecode (okClient "ver_123" "verified")
        ⟨"GET", sendBody⟩).effects = []) :=
  wrong_method_notAllowed sampleSendDecode sampleVerifyDecode
    (okClient "ver_123" "verified") ⟨"GET", sendBody⟩ (by decide)

/-- C10: in every JSON envelope that `sendOTP` or `verifyOTP` writes, on every path and
for every decoder and provider behaviour, `Error` is non-empty if and only if `Success`
is false, and the HTTP status is 200 if and only if the provider was invoked exactly once
and that call returned no error; otherwise the status is 400 with no provider call, or
500 with exactly one provider call, which failed. -/
theorem envelope_invariant (decodeS : String → Except String SendOTPRequest)
    (decodeV : String → Except String VerifyOTPRequest) (client : Client) (r : Request) :
    (∀ j, (sendOTP decodeS client r).reply = .json j →
      (j.data.Error ≠ "" ↔ j.data.Success = false) ∧
      (j.status = 200 ↔
        ∃ q v, providerCalls (sendOTP decodeS client r).effects = [.send q] ∧
          client.Send q = .ok v) ∧
      (j.status = 200 ∨
        (j.status = 400 ∧ providerCalls (sendOTP decodeS client r).effects = []) ∨
        (j.status = 500 ∧
          ∃ q err, providerCalls (sendOTP decodeS client r).effects = [.send q] ∧
            client.Send q = .error err))) ∧
    (∀ j, (verifyOTP decodeV client r).reply = .json j →
      (j.data.Error ≠ "" ↔ j.data.Success = false) ∧
      (j.status = 200 ↔
        ∃ i q res, providerCalls (verifyOTP decodeV client r).effects = [.check i q] ∧
          client.Check i q = .ok res) ∧
      (j.status = 200 ∨
        (j.status = 400 ∧ providerCalls (verifyOTP decodeV client r).effects = []) ∨
        (j.status = 500 ∧
          ∃ i q err, providerCalls (verifyOTP decodeV client r).effects = [.check i q] ∧
            client.Check i q = .error err))) := by
  constructor
  · intro j hj
    rcases sendOTP_cases decodeS client r with
      ⟨_, h⟩ | ⟨_, e, _, h⟩ | ⟨_, req, _, _, h⟩ | ⟨_, req, err, _, _, hs, h⟩ |
      ⟨_, req, v, _, _, hs, h⟩
    · rw [h] at hj; cases hj
    · rw [h] at hj ⊢; cases hj
      simp [respondJSON, providerCalls, StatusBadRequest]
    · rw [h] at hj ⊢; cases hj
      simp [respondJSON, providerCalls, StatusBadRequest]
    · rw [h] at hj ⊢; cases hj
      have hne := sprintfV_ne_empty "Failed to send OTP: " err (by decide)
      simp [respondJSON, providerCalls, StatusInternalServerError, hs, hne]
    · rw [h] at hj ⊢; cases hj
      simp [respondJSON, providerCalls, StatusOK, hs]
  · intro j hj
    rcases verifyOTP_cases decodeV client r with
      ⟨_, h⟩ | ⟨_, e, _, h⟩ | ⟨_, req, _, _, h⟩ | ⟨_, req, err, _, _, _, hs, h⟩ |
      ⟨_, req, res, _, _, _, hs, _, h⟩ | ⟨_, req, res, _, _, _, hs, _, h⟩
    · rw [h] at hj; cases hj
    · rw [h] at hj ⊢; cases hj
      simp [respondJSON, providerCalls, StatusBadRequest]
    · rw [h] at hj ⊢; cases hj
      simp [respondJSON, providerCalls, StatusBadRequest]
    · rw [h] at hj ⊢; cases hj
      have hne := sprintfV_ne_empty "Failed to verify OTP: " err (by decide)
      simp [respondJSON, providerCalls, StatusInternalServerError, hs, hne]
      exact ⟨_, _, ⟨rfl, rfl⟩, err, hs⟩
    · rw [h] at hj ⊢; cases hj
      simp [respondJSON, providerCalls, StatusOK, hs]
      exact ⟨_, _, ⟨rfl, rfl⟩, res, hs⟩
    · rw [h] at hj ⊢; cases hj
      simp [respondJSON, providerCalls, StatusOK, hs]
      exact ⟨_, _, ⟨rfl, rfl⟩, res, hs⟩

/-- Witness for C10: the envelope of a successful send (HTTP 200, one provider call that
succeeded) and the envelope of a verify whose provider call failed (HTTP 500). -/
theorem envelope_invariant_witness :
    (((respondJSON 200 ({ VerificationID := "ver_123", Success := true } :
          SendOTPResponse)).data.Error ≠ "" ↔
        (respondJSON 200 ({ VerificationID := "ver_123", Success := true } :
          SendOTPResponse)).data.Success = false) ∧
      ((respondJSON 200 ({ VerificationID := "ver_123", Success := true } :
          SendOTPResponse)).status = 200 ↔
        ∃ q v, providerCalls (sendOTP sampleSendDecode (okClient "ver_123" "")
            ⟨"POST", sendBody⟩).effects = [.send q] ∧
          (okClient "ver_123" "").Send q = .ok v) ∧
      ((respondJSON 200 ({ VerificationID := "ver_123", Success := true } :
          SendOTPResponse)).status = 200 ∨
        ((respondJSON 200 ({ VerificationID := "ver_123", Success := true } :
            SendOTPResponse)).status = 400 ∧
          providerCalls (sendOTP sampleSendDecode (okClient "ver_123" "")
            ⟨"POST", sendBody⟩).effects = []) ∨
        ((respondJSON 200 ({ VerificationID := "ver_123", Success := true } :
            SendOTPResponse)).status = 500 ∧
          ∃ q err, providerCalls (sendOTP sampleSendDecode (okClient "ver_123" "")
              ⟨"POST", sendBody⟩).effects = [.send q] ∧
            (okClient "ver_123" "").Send q = .error err))) ∧
    (((respondJSON 500 ({ Error := "Failed to verify OTP: timeout" } :
          VerifyOTPResponse)).data.Error ≠ "" ↔
        (respondJSON 500 ({ Error := "Failed to verify OTP: timeout" } :
          VerifyOTPResponse)).data.Success = false) ∧
      ((respondJSON 500 ({ Error := "Failed to verify OTP: timeout" } :
          VerifyOTPResponse)).status = 200 ↔
        ∃ i q res, providerCalls (verifyOTP sampleVerifyDecode (failingClient "timeout")
            ⟨"POST", verifyBody⟩).effects = [.check i q] ∧
          (failingClient "timeout").Check i q = .ok res) ∧
      ((respondJSON 500 ({ Error := "Failed to verify OTP: timeout" } :
          VerifyOTPResponse)).status = 200 ∨
        ((respondJSON 500 ({ Error := "Failed to verify OTP: timeout" } :
            VerifyOTPResponse)).status = 400 ∧
          providerCalls (verifyOTP sampleVerifyDecode (failingClient "timeout")
            ⟨"POST", verifyBody⟩).effects = []) ∨
        ((respondJSON 500 ({ Error := "Failed to verify OTP: timeout" } :
            VerifyOTPResponse)).status = 500 ∧
          ∃ i q err, providerCalls (verifyOTP sampleVerifyDecode (failingClient "timeout")
              ⟨"POST", verifyBody⟩).effects = [.check i q] ∧
            (failingClient "timeout").Check i q = .error err))) :=
  ⟨(envelope_invariant sampleSendDecode sampleVerifyDecode (okClient "ver_123" "")
      ⟨"POST", sendBody⟩).1 _ (by decide),
   (envelope_invariant sampleSendDecode sampleVerifyDecode (failingClient "timeout")
      ⟨"POST", verifyBody⟩).2 _ (by decide)⟩

end OTP
